import Mathlib

/-!
# Verification of the tg_searcher ingestion / archival / pagination core

Shallow embedding of the parts of `tg_searcher` that the specification
talks about: the backfill and live-event paths of `backend_bot.py`, the
conditional DynamoDB write of `aws.py`, and the pagination rendering and
in-memory correlation store of `frontend_bot.py`.  Pure functions of the
source become Lean functions; the mutable bot state is passed explicitly;
Python exceptions become `Except` values; external collaborators (the
whoosh index, the Telegram client, the AWS SDK) are represented by the
operations the code issues against them, as the specification treats them
as interface-only collaborators.
-/

namespace TgSearcher

/-- Python runtime value that is either a `str` or a `bool`.  Needed
because `download_history` (backend_bot.py:99) binds `msg_text` with
`msg_text := self._extract_text(tg_message) and not skip_indexing`: the
walrus operator captures the whole `and` expression, whose value is the
boolean `not skip_indexing` whenever the extracted text is non-empty, and
the empty string otherwise. -/
inductive PyVal where
  | str (s : String)
  | bool (b : Bool)
deriving DecidableEq, Repr

/-- Python truthiness for the two shapes of `PyVal` the code produces. -/
def PyVal.truthy : PyVal → Bool
  | .str s => s != ""
  | .bool b => b

/-- Modelled from the spec: `get_share_id` lives in `common.py`, which is
not among the sources.  Per the Chat Identity Resolver contract it is a
pure, total, deterministic and idempotent canonicalization reducing the
platform's "full" (marked) broadcast/supergroup identifier to the "short"
canonical identifier: a full id is encoded as `-(10^12 + short)`, other
negative raw forms drop the sign, and canonical (non-negative) ids are
fixed points. -/
def get_share_id (chat_id : Int) : Int :=
  if chat_id < -1000000000000 then -chat_id - 1000000000000
  else if chat_id < 0 then -chat_id
  else chat_id

/-- The fields of a platform message that the ingestion pipeline reads:
`id`, `raw_text` (absent on bare events without text), `date` (as a unix
timestamp) and the resolved sender display name (empty when there is no
`User` sender, per `BackendBot._get_sender_name`). -/
structure TgMsg where
  id : Int
  raw_text : Option String
  date : Int
  sender_name : String
deriving DecidableEq, Repr

/-- Python `str.strip()`: drop leading and trailing whitespace. -/
def py_strip (s : String) : String :=
  ⟨((s.data.dropWhile Char.isWhitespace).reverse.dropWhile
      Char.isWhitespace).reverse⟩

/-- `BackendBot._extract_text` (backend_bot.py:195-200): when the event
has a truthy `raw_text`, return the escaped stripped text, otherwise the
empty string.  The `len(event.raw_text.strip()) >= 0` conjunct of the
source is always true and drops out.  `esc` stands for `escape_content`
from the absent `common.py`; it is kept abstract because every claim is
stated relative to the extracted text itself. -/
def _extract_text (esc : String → String) (m : TgMsg) : String :=
  match m.raw_text with
  | some t => if t != "" then esc (py_strip t) else ""
  | none => ""

/-- An `IndexMsg` record as constructed by `backend_bot.py` and handed to
the indexer.  `content` is a `PyVal` because the walrus bug in
`download_history` stores a Python boolean there; every other call site
stores a string. -/
structure IndexMsg where
  content : PyVal
  url : String
  chat_id : Int
  post_time : Int
  sender : String
deriving DecidableEq, Repr

/-- Message url as built at backend_bot.py:100, 218, 236 and 249:
`https://t.me/c/{share_id}/{message_id}`. -/
def msg_url (share_id : Int) (msg_id : Int) : String :=
  "https://t.me/c/" ++ toString share_id ++ "/" ++ toString msg_id

/-- `BackendBotConfig` (backend_bot.py:26-31); `excluded_chats` has
`get_share_id` applied to every entry at construction time. -/
structure BackendBotConfig where
  monitor_all : Bool
  excluded_chats : List Int
  cloudstorage : Bool
deriving DecidableEq, Repr

/-- The mutable monitoring state of a `BackendBot`: `monitored_chats`
(seeded from the index at startup) and `excluded_chats` (copied from the
config in `__init__`). -/
structure BackendState where
  monitored_chats : List Int
  excluded_chats : List Int
deriving DecidableEq, Repr

/-- `BackendBot._should_monitor` (backend_bot.py:187-193). -/
def _should_monitor (cfg : BackendBotConfig) (st : BackendState)
    (chat_id : Int) : Bool :=
  let share_id := get_share_id chat_id
  if cfg.monitor_all then !(decide (share_id ∈ st.excluded_chats))
  else decide (share_id ∈ st.monitored_chats)

/-- `FakeRedis` (frontend_bot.py:47-63): the in-memory replacement for the
redis correlation store used when redis is disabled.  The Python dict
`_data` is modelled as an association list in which `set` shadows any
earlier binding of the same key. -/
structure FakeRedis (α : Type) where
  _data : List (String × α)

/-- `FakeRedis.__init__` (frontend_bot.py:53-54): the store starts empty. -/
def FakeRedis.init {α : Type} : FakeRedis α := ⟨[]⟩

/-- `FakeRedis.get` (frontend_bot.py:56-57): `self._data.get(key)`, i.e.
the value bound to `key`, or `None` when absent. -/
def FakeRedis.get {α : Type} (r : FakeRedis α) (key : String) : Option α :=
  (r._data.find? fun kv => kv.1 == key).map fun kv => kv.2

/-- `FakeRedis.set` (frontend_bot.py:59-60): `self._data[key] = val`. -/
def FakeRedis.set {α : Type} (r : FakeRedis α) (key : String) (val : α) :
    FakeRedis α :=
  ⟨(key, val) :: r._data⟩

/-- The operations the ingestion pipeline issues against the Index
Gateway (the external whoosh-backed `Indexer`, an interface-only
collaborator per the spec). -/
inductive IndexOp where
  | add (msg : IndexMsg)
  | update (url : String) (content : String)
  | delete (url : String)
deriving DecidableEq, Repr

/-- A live new-message event: a raw chat identifier plus the message. -/
structure LiveEvent where
  chat_id : Int
  msg : TgMsg
deriving DecidableEq, Repr

/-- `client_message_handler` (backend_bot.py:212-230): gate by
`_should_monitor`; if the extracted text is truthy, build an `IndexMsg`
(with canonical `share_id`) and issue an index `add`; then, still under
the gate but independent of the text, call `cloud_upload_message` when
cloud storage is configured.  Returns the index operations issued and
whether the archival sink was invoked. -/
def client_message_handler (esc : String → String) (cfg : BackendBotConfig)
    (st : BackendState) (ev : LiveEvent) : List IndexOp × Bool :=
  if _should_monitor cfg st ev.chat_id then
    let msg_text := _extract_text esc ev.msg
    let ops :=
      if msg_text != "" then
        let share_id := get_share_id ev.chat_id
        [IndexOp.add {
          content := PyVal.str msg_text,
          url := msg_url share_id ev.msg.id,
          chat_id := share_id,
          post_time := ev.msg.date,
          sender := ev.msg.sender_name }]
      else []
    (ops, cfg.cloudstorage)
  else ([], false)

/-- A message-deleted notification: `chat_id` is absent on some events
(the handler returns immediately then), plus the deleted message ids. -/
structure DeleteEvent where
  chat_id : Option Int
  deleted_ids : List Int
deriving DecidableEq, Repr

/-- `client_message_delete_handler` (backend_bot.py:242-251): bail out if
the event has no chat id, gate by `_should_monitor`, then issue an index
`delete` for the url of every deleted message id. -/
def client_message_delete_handler (cfg : BackendBotConfig)
    (st : BackendState) (ev : DeleteEvent) : List IndexOp :=
  match ev.chat_id with
  | none => []
  | some cid =>
    if _should_monitor cfg st cid then
      let share_id := get_share_id cid
      ev.deleted_ids.map fun mid => IndexOp.delete (msg_url share_id mid)
    else []

/-- One indexing step of the `async for` body of `download_history`
(backend_bot.py:99-109).  The walrus expression binds `msg_text` to
`self._extract_text(tg_message) and not skip_indexing` as a whole, so the
buffered record stores that value — a boolean when the text is non-empty
— as `content`, together with the raw `chat_id` (line 105) while only the
url uses `share_id`. -/
def download_step (esc : String → String) (skip_indexing : Bool)
    (share_id chat_id : Int) (m : TgMsg) : List IndexMsg :=
  let extracted := _extract_text esc m
  let msg_text : PyVal :=
    if extracted != "" then PyVal.bool (!skip_indexing) else PyVal.str extracted
  if msg_text.truthy then
    [{ content := msg_text,
       url := msg_url share_id m.id,
       chat_id := chat_id,
       post_time := m.date,
       sender := m.sender_name }]
  else []

/-- Drains the message iterator of `download_history`, collecting the
records appended to `msg_list`; an iterator failure stops the loop with
that error, and the records collected before the failure are returned to
the caller alongside it (they existed in `msg_list` when the exception
propagated). -/
def buffer_fetched (esc : String → String) (skip_indexing : Bool)
    (share_id chat_id : Int) :
    List (Except String TgMsg) → Except String Unit × List IndexMsg
  | [] => (Except.ok (), [])
  | Except.error e :: _ => (Except.error e, [])
  | Except.ok m :: rest =>
    let r := buffer_fetched esc skip_indexing share_id chat_id rest
    (r.1, download_step esc skip_indexing share_id chat_id m ++ r.2)

/-- The state `download_history` touches: the committed index (the
documents made durable by `writer.commit()`) and the monitored set. -/
structure BackfillState where
  committed : List IndexMsg
  monitored_chats : List Int
deriving DecidableEq, Repr

/-- Python `set.add` on the monitored set. -/
def set_add (x : Int) (s : List Int) : List Int :=
  if x ∈ s then s else s ++ [x]

/-- `BackendBot.download_history` (backend_bot.py:82-118), indexing path:
canonicalize the chat id, add it to the monitored set, iterate the
bounded range buffering records per `download_step`, and only after the
whole range is exhausted open a writer and commit the buffer in one
batch.  An iterator exception propagates before the writer is ever
created, so on a mid-range failure `committed` is unchanged (the buffer
is dropped with the stack frame). -/
def download_history (esc : String → String) (skip_indexing : Bool)
    (chat_id : Int) (fetch : List (Except String TgMsg))
    (st : BackfillState) : Except String Unit × BackfillState :=
  let share_id := get_share_id chat_id
  let monitored := set_add share_id st.monitored_chats
  let r := buffer_fetched esc skip_indexing share_id chat_id fetch
  match r.1 with
  | Except.ok _ =>
    (Except.ok (),
     { committed := st.committed ++ r.2, monitored_chats := monitored })
  | Except.error e =>
    (Except.error e,
     { committed := st.committed, monitored_chats := monitored })

/-- The state `BackendBot.clear` touches: the index documents (each
carrying the `chat_id` term it was stored under) and the monitored set. -/
structure ClearState where
  docs : List IndexMsg
  monitored_chats : List Int
deriving DecidableEq, Repr

/-- The second loop of `clear` (backend_bot.py:125-126):
`self.monitored_chats.remove(chat_id)` removes each id in turn but raises
`KeyError` as soon as an id is absent, keeping the removals made so far. -/
def remove_each : List Int → List Int → Except String Unit × List Int
  | [], mon => (Except.ok (), mon)
  | c :: rest, mon =>
    if c ∈ mon then remove_each rest (mon.erase c)
    else (Except.error "KeyError", mon)

/-- `BackendBot.clear` (backend_bot.py:120-129): with explicit chat ids
it first deletes every listed chat's documents by the `chat_id` term (one
writer per chat, all committed), then removes each id from the monitored
set with `set.remove`; with `None` it clears the whole index and the
whole monitored set. -/
def clear (chat_ids : Option (List Int)) (st : ClearState) :
    Except String Unit × ClearState :=
  match chat_ids with
  | some ids =>
    let docs := st.docs.filter fun d => !(decide (d.chat_id ∈ ids))
    let r := remove_each ids st.monitored_chats
    (r.1, { docs := docs, monitored_chats := r.2 })
  | none => (Except.ok (), { docs := [], monitored_chats := [] })

/-- A DynamoDB item: a finite list of attribute name/value pairs (values
modelled as strings; only presence and equality of attributes matter). -/
abbrev Item := List (String × String)

/-- Look up an attribute of an item. -/
def attr_val (item : Item) (name : String) : Option String :=
  (item.find? fun kv => kv.1 == name).map fun kv => kv.2

/-- `DEFAULT_KEY_SCHEMA` (aws.py:10-13): partition key `chatId`, sort key
`timestamp`. -/
def DEFAULT_KEY_SCHEMA : List (String × String) :=
  [("chatId", "HASH"), ("timestamp", "RANGE")]

/-- The primary key of an item per `DEFAULT_KEY_SCHEMA`. -/
def item_key (item : Item) : Option String × Option String :=
  (attr_val item "chatId", attr_val item "timestamp")

/-- The `ConditionExpression`
`attribute_not_exists(chat_id) AND attribute_not_exists(#ts)` with
`#ts = "timestamp"` (aws.py:121-122), evaluated by DynamoDB against the
existing item that shares the new item's primary key. -/
def condition_holds (existing : Item) : Bool :=
  (attr_val existing "chat_id").isNone && (attr_val existing "timestamp").isNone

/-- The stored rows of the DynamoDB table. -/
structure DynamoTable where
  rows : List Item
deriving DecidableEq, Repr

/-- `AWSClient.put_item_to_dynamo` (aws.py:111-125) under DynamoDB
`put_item` semantics: the key attributes of the schema must be present in
the item; when a row with the same primary key exists, the condition
expression is evaluated against it, and on failure the call raises (the
SDK exception rewrapped as `RuntimeError`) without mutating storage;
otherwise the item is written (replacing a row with the same key). -/
def put_item_to_dynamo (tbl : DynamoTable) (item : Item) :
    Except String Unit × DynamoTable :=
  if (attr_val item "chatId").isNone || (attr_val item "timestamp").isNone then
    (Except.error "ValidationException", tbl)
  else
    match tbl.rows.find? fun r => item_key r == item_key item with
    | some existing =>
      if condition_holds existing then
        (Except.ok (),
         ⟨tbl.rows.map fun r => if item_key r == item_key item then item else r⟩)
      else (Except.error "RuntimeError: ConditionalCheckFailedException", tbl)
    | none => (Except.ok (), ⟨tbl.rows ++ [item]⟩)

/-- Media classification outcome of `cloud_upload_message`
(backend_bot.py:308-319), a closed variant per the spec. -/
inductive MediaKind where
  | photo
  | audio
  | video
  | document
  | unknown
deriving DecidableEq, Repr

/-- The attachment fields `cloud_upload_message` reads: the classified
kind, `message.file.name` (absent when `message.file` is `None`, in which
case reading it raises) and `message.file.ext`. -/
structure MediaInfo where
  kind : MediaKind
  file_name : Option String
  ext : String
deriving DecidableEq, Repr

/-- The message fields `cloud_upload_message` reads. -/
structure CloudMsg where
  chat_id : Int
  id : Int
  text : Option String
  timestamp : Int
  media : Option MediaInfo
deriving DecidableEq, Repr

/-- The outcomes of the external calls `cloud_upload_message` makes; each
call may fail with an exception, which the environment decides. -/
structure CloudEnv where
  check_message_exist : Int → Int → Except String Bool
  download_media : Int → Int → Except String Unit
  upload_to_s3 : String → String → Except String String
  put_record : Item → Except String Unit

/-- The `try` body of `cloud_upload_message` (backend_bot.py:257-340):
canonicalize the chat id, pre-check existence (skipping when found and
`skip_existing`), download and upload any media (deriving the file name,
which for a document reads `message.file.name` and raises when
`message.file` is `None`), then write the structured record.  Every
failure surfaces as `Except.error`. -/
def cloud_upload_message_body (env : CloudEnv) (m : CloudMsg)
    (skip_existing : Bool) : Except String Unit := do
  let chat_id := get_share_id m.chat_id
  let message_id := m.id
  let exist ← env.check_message_exist chat_id message_id
  if exist && skip_existing then
    return ()
  match m.media with
  | some media => do
    let file_name1 ←
      if media.kind == MediaKind.document then
        match media.file_name with
        | some n => pure n
        | none => Except.error "AttributeError"
      else pure ""
    let _ ← env.download_media chat_id message_id
    let file_name :=
      if file_name1 == "" then
        toString chat_id ++ "_" ++ toString message_id ++ "_" ++
          toString m.timestamp ++ media.ext
      else file_name1
    let _media_key ← env.upload_to_s3 (toString chat_id) file_name
    env.put_record
      [("chatId", toString chat_id), ("timestamp", toString m.timestamp)]
  | none =>
    env.put_record
      [("chatId", toString chat_id), ("timestamp", toString m.timestamp)]

/-- `cloud_upload_message` (backend_bot.py:253-342): return immediately
when cloud storage is not configured, otherwise run the body inside the
`try/except Exception` that logs and swallows every failure. -/
def cloud_upload_message (configured : Bool) (env : CloudEnv) (m : CloudMsg)
    (skip_existing : Bool) : Except String Unit :=
  if !configured then Except.ok ()
  else
    match cloud_upload_message_body env m skip_existing with
    | Except.ok _ => Except.ok ()
    | Except.error _ => Except.ok ()

/-- The search-result surface `_render_respond_buttons` consumes. -/
structure SearchResult where
  total_results : Int
  is_last_page : Bool
deriving DecidableEq, Repr

/-- The three inline buttons rendered under a search response: text and
callback data of the previous-page button, the middle page label, and
text and callback data of the next-page button.  Empty callback data is
the disabled/absent form. -/
structure RenderedButtons where
  former_text : String
  former_page : String
  page_label : String
  next_text : String
  next_page : String
deriving DecidableEq, Repr

/-- `BotFrontend._render_respond_buttons` (frontend_bot.py:484-498):
the previous button is blank exactly on page 1, the next button is blank
exactly when the gateway reported the last page, and
`total_pages = - (- total_results // page_len)` (Python floor division
used to compute a ceiling). -/
def _render_respond_buttons (page_len : Int) (result : SearchResult)
    (cur_page_num : Int) : RenderedButtons :=
  let fp :=
    if cur_page_num == 1 then ("", " ")
    else ("search_page=" ++ toString (cur_page_num - 1), "上一页⬅️")
  let np :=
    if result.is_last_page then ("", " ")
    else ("search_page=" ++ toString (cur_page_num + 1), "➡️下一页")
  let total_pages := -((-result.total_results).fdiv page_len)
  { former_text := fp.2,
    former_page := fp.1,
    page_label := toString cur_page_num ++ " / " ++ toString total_pages,
    next_text := np.2,
    next_page := np.1 }

/-- C4: for every raw chat identifier and every monitoring state,
`_should_monitor` returns true iff, in monitor-all mode, the canonical id
is not excluded, and otherwise iff the canonical id is monitored. -/
theorem should_monitor_matches_policy (cfg : BackendBotConfig)
    (st : BackendState) (chat_id : Int) :
    _should_monitor cfg st chat_id = true ↔
      ((cfg.monitor_all = true ∧ get_share_id chat_id ∉ st.excluded_chats) ∨
       (cfg.monitor_all = false ∧ get_share_id chat_id ∈ st.monitored_chats)) := by
  unfold _should_monitor
  cases h : cfg.monitor_all <;> simp [h]

/-- C4 witness: a chat whose canonical id is in the monitored set passes
the gate when `monitor_all` is off. -/
theorem should_monitor_matches_policy_witness :
    _should_monitor ⟨false, [], false⟩ ⟨[7], []⟩ 7 = true :=
  (should_monitor_matches_policy ⟨false, [], false⟩ ⟨[7], []⟩ 7).mpr
    (Or.inr ⟨rfl, by decide⟩)

/-- C10: for the in-memory correlation store, `get` after `set` of the
same key returns the value just written (a later `set` of the same key
overwrites), a fresh store returns `None` for every key, and a `set` of a
different key leaves a key's lookup unchanged. -/
theorem fakeredis_get_set_semantics (α : Type) (r : FakeRedis α)
    (k k2 : String) (v v2 : α) :
    ((r.set k v).get k = some v) ∧
    (((r.set k v).set k v2).get k = some v2) ∧
    ((FakeRedis.init : FakeRedis α).get k = none) ∧
    (k2 ≠ k → (r.set k2 v2).get k = r.get k) := by
  refine ⟨?_, ?_, ?_, ?_⟩
  · simp [FakeRedis.get, FakeRedis.set]
  · simp [FakeRedis.get, FakeRedis.set]
  · simp [FakeRedis.get, FakeRedis.init]
  · intro hne
    have hbeq : (k2 == k) = false := by
      simp [hne]
    simp [FakeRedis.get, FakeRedis.set, List.find?, hbeq]

/-- C10 witness: concrete store reads after writes. -/
theorem fakeredis_get_set_semantics_witness :
    (((FakeRedis.init : FakeRedis Nat).set "a" 0).get "a" = some 0) ∧
    (((FakeRedis.init : FakeRedis Nat).set "b" 1).get "a" =
      (FakeRedis.init : FakeRedis Nat).get "a") :=
  ⟨(fakeredis_get_set_semantics Nat FakeRedis.init "a" "b" 0 1).1,
   (fakeredis_get_set_semantics Nat FakeRedis.init "a" "b" 0 1).2.2.2
     (by decide)⟩

/-- C1 (code bug evaluation): backfilling chat `-1001234567890`
(canonical id `1234567890`) over one message with text `hello` and
`skip_indexing` false commits exactly one record — but its `content` is
the Python boolean `True` (the walrus operator binds `msg_text` to the
whole expression `self._extract_text(tg_message) and not skip_indexing`)
and its `chat_id` is the raw identifier rather than the canonical one;
only the url uses the canonical id. -/
theorem download_history_buffers_boolean_content_and_raw_chat_id :
    (download_history (fun s => s) false (-1001234567890)
        [Except.ok { id := 5, raw_text := some "hello", date := 1000,
                     sender_name := "alice" }]
        { committed := [], monitored_chats := [] }).2.committed =
      [{ content := PyVal.bool true,
         url := "https://t.me/c/1234567890/5",
         chat_id := -1001234567890,
         post_time := 1000,
         sender := "alice" }] ∧
    get_share_id (-1001234567890) = 1234567890 := by
  constructor
  · decide
  · decide

/-- C2 counterexample: with one successfully fetched text message
followed by a platform read error, a record was buffered (first
conjunct), yet the run raises and the committed index stays empty — the
already-buffered record is silently discarded, contradicting the claim
that it is still committed. -/
theorem download_history_midrange_failure_commits_nothing_cex :
    (buffer_fetched (fun s => s) false 100 100
        [Except.ok { id := 1, raw_text := some "a", date := 0, sender_name := "" },
         Except.error "rpc error"]).2 =
      [{ content := PyVal.bool true, url := "https://t.me/c/100/1",
         chat_id := 100, post_time := 0, sender := "" }] ∧
    (download_history (fun s => s) false 100
        [Except.ok { id := 1, raw_text := some "a", date := 0, sender_name := "" },
         Except.error "rpc error"]
        { committed := [], monitored_chats := [] }).1 = Except.error "rpc error" ∧
    (download_history (fun s => s) false 100
        [Except.ok { id := 1, raw_text := some "a", date := 0, sender_name := "" },
         Except.error "rpc error"]
        { committed := [], monitored_chats := [] }).2.committed = [] := by
  refine ⟨by decide, rfl, rfl⟩

/-- C2 amended: if the message iteration inside `download_history` fails
partway through the bounded range, the exception propagates before the
batch commit, so the committed index is exactly what it was before the
call — the buffered records are dropped, not committed. -/
theorem download_history_midrange_failure_drops_buffer
    (esc : String → String) (skip_indexing : Bool) (chat_id : Int)
    (fetch : List (Except String TgMsg)) (st : BackfillState) (e : String)
    (h : (download_history esc skip_indexing chat_id fetch st).1 =
      Except.error e) :
    (download_history esc skip_indexing chat_id fetch st).2.committed =
      st.committed := by
  cases hr : (buffer_fetched esc skip_indexing (get_share_id chat_id)
      chat_id fetch).1 with
  | ok u => simp [download_history, hr] at h
  | error e2 => simp [download_history, hr]

/-- C2 amended, witness: a run whose very first fetch fails commits
nothing. -/
theorem download_history_midrange_failure_drops_buffer_witness :
    (download_history (fun s => s) false 7 [Except.error "boom"]
        { committed := [], monitored_chats := [] }).2.committed = [] :=
  download_history_midrange_failure_drops_buffer (fun s => s) false 7
    [Except.error "boom"] { committed := [], monitored_chats := [] } "boom" rfl

/-- Helper: `find?` skips a prefix in which nothing matches. -/
theorem find?_append_of_none {α : Type} (p : α → Bool) (l l2 : List α)
    (h : l.find? p = none) : (l ++ l2).find? p = l2.find? p := by
  induction l with
  | nil => simp
  | cons a t ih =>
    by_cases hpa : p a
    · rw [List.find?_cons_of_pos _ hpa] at h
      exact absurd h (by simp)
    · rw [List.find?_cons_of_neg _ hpa] at h
      rw [List.cons_append, List.find?_cons_of_neg _ hpa]
      exact ih h

/-- C3: `put_item_to_dynamo` is a conditional write keyed by the declared
partition+sort schema: writing an item under a fresh primary key
succeeds, and repeating the identical call then fails — the stored row
carries the `timestamp` key attribute, so
`attribute_not_exists(#ts)` is false — raising the wrapped duplicate
error without any storage mutation, leaving exactly one stored row for
that key. -/
theorem put_item_to_dynamo_dedup (tbl tbl' : DynamoTable) (item : Item)
    (hfresh : tbl.rows.find? (fun r => item_key r == item_key item) = none)
    (hok : put_item_to_dynamo tbl item = (Except.ok (), tbl')) :
    tbl'.rows.countP (fun r => item_key r == item_key item) = 1 ∧
    put_item_to_dynamo tbl' item =
      (Except.error "RuntimeError: ConditionalCheckFailedException", tbl') := by
  unfold put_item_to_dynamo at hok
  by_cases hv : ((attr_val item "chatId").isNone ||
      (attr_val item "timestamp").isNone) = true
  · rw [if_pos hv] at hok
    simp at hok
  · rw [if_neg hv] at hok
    rw [hfresh] at hok
    simp at hok
    obtain ⟨hc, ht⟩ : (attr_val item "chatId").isNone = false ∧
        (attr_val item "timestamp").isNone = false := by
      constructor <;> cases hcn : (attr_val item "chatId").isNone <;>
        cases htn : (attr_val item "timestamp").isNone <;>
        simp [hcn, htn] at hv ⊢
    have hrows : tbl'.rows = tbl.rows ++ [item] := by
      rw [← hok]
    constructor
    · rw [hrows, List.countP_append]
      have h0 : tbl.rows.countP (fun r => item_key r == item_key item) = 0 := by
        rw [List.countP_eq_zero]
        intro a ha
        exact List.find?_eq_none.mp hfresh a ha
      rw [h0]
      simp [List.countP_cons]
    · unfold put_item_to_dynamo
      rw [if_neg hv]
      have hfind : tbl'.rows.find?
          (fun r => item_key r == item_key item) = some item := by
        rw [hrows, find?_append_of_none _ _ _ hfresh]
        exact List.find?_cons_of_pos
          (p := fun r => item_key r == item_key item) []
          (beq_self_eq_true (item_key item))
      rw [hfind]
      have hcond : condition_holds item = false := by
        unfold condition_holds
        rw [ht]
        simp
      simp [hcond]

/-- C3 witness: a fresh table accepts the item once, and the second
identical call raises and leaves the single stored row unchanged. -/
theorem put_item_to_dynamo_dedup_witness :
    (⟨[[("chatId", "1"), ("timestamp", "2"), ("text", "hi")]]⟩ :
        DynamoTable).rows.countP
      (fun r => item_key r ==
        item_key [("chatId", "1"), ("timestamp", "2"), ("text", "hi")]) = 1 ∧
    put_item_to_dynamo
        ⟨[[("chatId", "1"), ("timestamp", "2"), ("text", "hi")]]⟩
        [("chatId", "1"), ("timestamp", "2"), ("text", "hi")] =
      (Except.error "RuntimeError: ConditionalCheckFailedException",
       ⟨[[("chatId", "1"), ("timestamp", "2"), ("text", "hi")]]⟩) :=
  put_item_to_dynamo_dedup ⟨[]⟩
    ⟨[[("chatId", "1"), ("timestamp", "2"), ("text", "hi")]]⟩
    [("chatId", "1"), ("timestamp", "2"), ("text", "hi")] rfl rfl

/-- C5: for every live new-message event, an index `add` is issued iff
the chat passes the monitoring gate and the extracted text is non-empty;
and the archival sink is invoked iff cloud storage is enabled and the
chat passes the gate — independent of whether the text is empty. -/
theorem live_new_message_index_iff_archival_iff (esc : String → String)
    (cfg : BackendBotConfig) (st : BackendState) (ev : LiveEvent) :
    ((∃ m, IndexOp.add m ∈ (client_message_handler esc cfg st ev).1) ↔
      (_should_monitor cfg st ev.chat_id = true ∧
        _extract_text esc ev.msg ≠ "")) ∧
    ((client_message_handler esc cfg st ev).2 =
      (cfg.cloudstorage && _should_monitor cfg st ev.chat_id)) := by
  cases hg : _should_monitor cfg st ev.chat_id with
  | false => simp [client_message_handler, hg]
  | true =>
    by_cases htxt : _extract_text esc ev.msg = ""
    · simp [client_message_handler, hg, htxt]
    · simp [client_message_handler, hg, htxt]

/-- C5 witness: with cloud storage enabled and `monitor_all` on, a new
message triggers the archival sink. -/
theorem live_new_message_index_iff_archival_iff_witness :
    (client_message_handler (fun s => s) ⟨true, [], true⟩ ⟨[], []⟩
        ⟨42, { id := 3, raw_text := some "hi", date := 9,
               sender_name := "bob" }⟩).2 = true :=
  ((live_new_message_index_iff_archival_iff (fun s => s) ⟨true, [], true⟩
      ⟨[], []⟩ ⟨42, { id := 3, raw_text := some "hi", date := 9,
                      sender_name := "bob" }⟩).2).trans (by decide)

/-- C6: `cloud_upload_message` never propagates an exception: whatever
the outcomes of the existence pre-check, the media download and upload,
and the structured-store write, the call returns normally. -/
theorem cloud_upload_message_never_raises (configured : Bool)
    (env : CloudEnv) (m : CloudMsg) (skip_existing : Bool) :
    cloud_upload_message configured env m skip_existing = Except.ok () := by
  unfold cloud_upload_message
  cases configured with
  | false => rfl
  | true =>
    cases h : cloud_upload_message_body env m skip_existing with
    | ok u => simp [h]
    | error e => simp [h]

/-- C6 witness: even when the structured-store write fails, the call
returns normally. -/
theorem cloud_upload_message_never_raises_witness :
    cloud_upload_message true
      ⟨fun _ _ => Except.ok false, fun _ _ => Except.ok (),
       fun _ _ => Except.ok "k", fun _ => Except.error "dynamo down"⟩
      ⟨-1001, 1, none, 0, none⟩ true = Except.ok () :=
  cloud_upload_message_never_raises true
    ⟨fun _ _ => Except.ok false, fun _ _ => Except.ok (),
     fun _ _ => Except.ok "k", fun _ => Except.error "dynamo down"⟩
    ⟨-1001, 1, none, 0, none⟩ true

/-- Helper: a `search_page=` callback payload is never the empty
string. -/
theorem search_page_data_ne_empty (s : String) :
    ("search_page=" ++ s) ≠ "" := by
  intro hcontra
  have hl := congrArg String.length hcontra
  rw [String.length_append] at hl
  have h12 : ("search_page=" : String).length = 12 := rfl
  have h0 : ("" : String).length = 0 := rfl
  omega

/-- Helper: the Python idiom `- (- t // p)` (floor division) computes the
ceiling of `t / p` for a non-negative total and positive page length. -/
theorem neg_fdiv_neg_eq_ceil (t p : ℕ) (hp : 0 < p) :
    -((-(t : Int)).fdiv (p : Int)) = (((t + p - 1) / p : ℕ) : Int) := by
  obtain ⟨k, rfl⟩ : ∃ k, p = k + 1 := ⟨p - 1, by omega⟩
  cases t with
  | zero =>
    have h1 : (-((0 : ℕ) : Int)).fdiv ((k + 1 : ℕ) : Int) = 0 := rfl
    rw [h1]
    have h2 : ((0 + (k + 1) - 1) / (k + 1) : ℕ) = 0 :=
      Nat.div_eq_of_lt (by omega)
    rw [h2]
    simp
  | succ n =>
    have hneg : -((n + 1 : ℕ) : Int) = Int.negSucc n := by
      rw [Int.negSucc_eq]
      push_cast
      ring
    have hfd : (Int.negSucc n).fdiv ((k + 1 : ℕ) : Int) =
        Int.negSucc (n / (k + 1)) := rfl
    rw [hneg, hfd]
    have hr : (n + 1) + (k + 1) - 1 = n + (k + 1) := by omega
    rw [hr, Nat.add_div_right _ (by omega)]
    rw [Int.negSucc_eq]
    push_cast
    ring

/-- C7: for every rendered search-result page with positive page length
and a non-negative result total, the previous button's callback data is
empty exactly on page 1, the next button's data is empty exactly when the
gateway reported the last page, and the middle label displays the current
page over `ceil(total_results / page_len)` total pages. -/
theorem render_respond_buttons_pagination (p t : ℕ) (result : SearchResult)
    (cur_page_num : Int) (hp : 0 < p)
    (ht : result.total_results = (t : Int)) :
    ((_render_respond_buttons (p : Int) result cur_page_num).former_page = ""
      ↔ cur_page_num = 1) ∧
    ((_render_respond_buttons (p : Int) result cur_page_num).next_page = ""
      ↔ result.is_last_page = true) ∧
    (_render_respond_buttons (p : Int) result cur_page_num).page_label =
      toString cur_page_num ++ " / " ++
        toString (((t + p - 1) / p : ℕ) : Int) := by
  unfold _render_respond_buttons
  refine ⟨?_, ?_, ?_⟩
  · by_cases hc : cur_page_num = 1
    · simp [hc]
    · have hb : (cur_page_num == 1) = false := by
        simp [hc]
      simp [hb, hc, search_page_data_ne_empty]
  · cases hl : result.is_last_page
    · simp [hl, search_page_data_ne_empty]
    · simp [hl]
  · rw [ht, neg_fdiv_neg_eq_ceil t p hp]

/-- C7 witness: 25 results at page length 10 on page 2 display
`2 / 3`. -/
theorem render_respond_buttons_pagination_witness :
    (_render_respond_buttons (10 : Int) ⟨25, false⟩ 2).page_label =
      toString (2 : Int) ++ " / " ++ toString (((25 + 10 - 1) / 10 : ℕ) : Int) :=
  (render_respond_buttons_pagination 10 25 ⟨25, false⟩ 2 (by decide) rfl).2.2

/-- C8 counterexample: a delete notification for a chat that fails the
monitoring gate issues no index delete at all, even though it carries a
deleted message id — contradicting the claim that every delete
notification leads to a delete call per id. -/
theorem delete_handler_unmonitored_noop_cex :
    client_message_delete_handler ⟨false, [], false⟩ ⟨[], []⟩
      ⟨some 123, [5]⟩ = [] := rfl

/-- C8 amended: for every delete notification that carries a chat id and
whose chat passes the monitoring gate, the handler issues exactly one
index delete per deleted message id, at the url encoding the canonical
chat id and that message id. -/
theorem delete_handler_monitored_deletes_each_url (cfg : BackendBotConfig)
    (st : BackendState) (cid : Int) (ids : List Int)
    (hmon : _should_monitor cfg st cid = true) :
    client_message_delete_handler cfg st ⟨some cid, ids⟩ =
      ids.map fun mid => IndexOp.delete (msg_url (get_share_id cid) mid) := by
  simp [client_message_delete_handler, hmon]

/-- C8 amended, witness: a monitored chat's delete notification deletes
both carried ids. -/
theorem delete_handler_monitored_deletes_each_url_witness :
    client_message_delete_handler ⟨false, [], false⟩ ⟨[123], []⟩
        ⟨some 123, [5, 6]⟩ =
      [IndexOp.delete (msg_url (get_share_id 123) 5),
       IndexOp.delete (msg_url (get_share_id 123) 6)] :=
  delete_handler_monitored_deletes_each_url ⟨false, [], false⟩ ⟨[123], []⟩
    123 [5, 6] (by decide)

/-- C9 counterexample: clearing chat 5, which is not in the monitored
set, is not a no-op — the call deletes chat 5's index documents and then
raises `KeyError` from `set.remove`. -/
theorem clear_absent_chat_keyerror_cex :
    clear (some [5])
        { docs := [{ content := PyVal.str "x", url := "https://t.me/c/5/1",
                     chat_id := 5, post_time := 0, sender := "" },
                   { content := PyVal.str "y", url := "https://t.me/c/7/1",
                     chat_id := 7, post_time := 0, sender := "" }],
          monitored_chats := [7] } =
      (Except.error "KeyError",
       { docs := [{ content := PyVal.str "y", url := "https://t.me/c/7/1",
                    chat_id := 7, post_time := 0, sender := "" }],
         monitored_chats := [7] }) := rfl

/-- C9 amended: clearing a single chat id absent from the monitored set
raises `KeyError` instead of being a no-op; the monitored set is left
unchanged, the chat's own index documents are deleted by term, and other
chats' documents are untouched. -/
theorem clear_absent_chat_raises_keyerror (st : ClearState) (c : Int)
    (h : c ∉ st.monitored_chats) :
    (clear (some [c]) st).1 = Except.error "KeyError" ∧
    (clear (some [c]) st).2.monitored_chats = st.monitored_chats ∧
    (clear (some [c]) st).2.docs =
      st.docs.filter fun d => !(decide (d.chat_id = c)) := by
  have hrm : remove_each [c] st.monitored_chats =
      (Except.error "KeyError", st.monitored_chats) := by
    simp [remove_each, h]
  refine ⟨?_, ?_, ?_⟩
  · simp [clear, hrm]
  · simp [clear, hrm]
  · simp only [clear]
    apply List.filter_congr
    intro d _
    have hiff : (d.chat_id ∈ [c]) ↔ (d.chat_id = c) := List.mem_singleton
    rw [decide_eq_decide.mpr hiff]

/-- C9 amended, witness: clearing an unmonitored chat id raises
`KeyError`. -/
theorem clear_absent_chat_raises_keyerror_witness :
    (clear (some [5]) { docs := [], monitored_chats := [7] }).1 =
      Except.error "KeyError" :=
  (clear_absent_chat_raises_keyerror { docs := [], monitored_chats := [7] } 5
    (by decide)).1

end TgSearcher
